import Mathlib

/-!
Shallow embedding of the DNS probe (src/dnsprobe.h, src/ProbeMain.cpp).

Conventions of the embedding:
* `Time` (C++ `unsigned long`, seconds since epoch) is `Nat`.
* C++ `double` quantities (durations, running statistics) are modelled as
  exact rationals `ℚ`; the spec's statistics claims are stated "within
  floating-point tolerance", i.e. about the exact real-arithmetic values.
* The field `_query_time_stddev` is represented by its square
  `query_time_var` (the running variance).  In exact arithmetic
  `stddev = √var` with `var ≥ 0`, and `Domain::update` reads the stored
  stddev only as `_query_time_stddev * _query_time_stddev`, so the two
  state machines are in exact correspondence; theorems about the stddev
  are stated through `Real.sqrt` of this field.
* `std::queue<Event>` is a `List Event` (front = head, push = append).
* Fallible SQL execution and the DNS network are modelled as explicit
  oracle inputs; log output and executed SQL statements are returned as
  ghost data so that "only logged" and "no storage operation" are statable.
-/

namespace dnsprobe

/-- Time in seconds since epoch (C++ `typedef unsigned long Time`). -/
abbrev Time := Nat

/-- Probe event types (`EventType` in dnsprobe.h, lines 51-56). -/
inductive EventType where
  | EV_SEND_REQUEST
  | EV_RECV_DATA
  | EV_TIMEOUT
  | EV_ERROR
deriving DecidableEq

open EventType

/-- Probe events (`struct Event`, dnsprobe.h lines 61-66). -/
structure Event where
  time : Nat
  target : String
  event : EventType
  duration : ℚ
deriving DecidableEq

/-- The modulus of `std::minstd_rand0`, which is libstdc++'s
`std::default_random_engine` used by `Domain::_PRNG`. -/
def lcgM : Nat := 2147483647

/-- Seeding of the linear congruential engine: state is the seed mod m,
replaced by 1 when that is 0 (the c = 0 LCG cannot sit at state 0). -/
def lcgSeed (s : Nat) : Nat := if s % lcgM = 0 then 1 else s % lcgM

/-- One advance of the `minstd_rand0` engine: x ↦ 16807·x mod m. -/
def lcgNext (s : Nat) : Nat := 16807 * s % lcgM

/-- The 8-bit XOR fold of the bytes of the domain name, computed in the
name-taking `Domain` constructor (dnsprobe.h lines 106-109):
`unsigned char hash = 0; for (;*p; hash ^= *p++);`.
Domain names are ASCII, so the byte of each character is `c.toNat % 256`. -/
def xorFold (name : String) : Nat :=
  name.toList.foldl (fun h c => h ^^^ c.toNat % 256) 0

/-- One draw of `std::uniform_int_distribution<int>(a, b)` on the engine.
The C++ standard leaves the distribution's algorithm
implementation-defined; it is modelled as one engine advance followed by
modulo reduction into [a, b].  Every claim below depends only on the draw
being a deterministic pure function of the engine state, which any
conforming implementation satisfies. -/
def drawInRange (a b s : Nat) : Nat × Nat :=
  let s2 := lcgNext s
  (a + s2 % (b - a + 1), s2)

/-- The domain to be probed (`class Domain`, dnsprobe.h lines 73-185).
Field `query_time_var` represents `_query_time_stddev` squared (see the
file header); `prng` is the `std::default_random_engine` state. -/
structure Domain where
  rank : Nat
  name : String
  query_time_avg : ℚ
  query_time_var : ℚ
  query_count : Nat
  time_first : Nat
  time_last : Nat
  events : List Event
  prng : Nat
deriving DecidableEq

/-- The name-taking `Domain` constructor (dnsprobe.h lines 95-113):
stores the given fields, starts with an empty event queue, and seeds the
random engine with the 8-bit XOR fold of the name.  The stddev argument
is stored as its square (representation of `_query_time_stddev`). -/
def Domain.make (name : String) (rank : Nat) (query_time_avg query_time_stddev : ℚ)
    (query_count : Nat) (time_first time_last : Nat) : Domain :=
  { rank := rank
    name := name
    query_time_avg := query_time_avg
    query_time_var := query_time_stddev * query_time_stddev
    query_count := query_count
    time_first := time_first
    time_last := time_last
    events := []
    prng := lcgSeed (xorFold name) }

/-- `Domain::update` (dnsprobe.h lines 127-165), translated one statement
at a time.  The event is pushed unconditionally; a non-ReceiveData event
returns false with no statistics change.  Otherwise `_time_first` is set
only when it is 0 (the unset sentinel, `if (!_time_first)`), `_time_last`
is overwritten, and the running mean and variance are updated by the
single-pass formulas.  `sqr_sum` recovers the running sum of squares from
`old_avg * old_avg + stddev²` (here `query_time_var`); the new variance
`sqr_avg - avg * avg` is the square of the stored
`_query_time_stddev = sqrt(sqr_avg - avg*avg)`. -/
def Domain.update (d : Domain) (e : Event) : Domain × Bool :=
  let d1 : Domain := { d with events := d.events ++ [e] }
  if e.event ≠ EV_RECV_DATA then (d1, false)
  else
    let tf := if d1.time_first = 0 then e.time else d1.time_first
    let old_avg := d1.query_time_avg
    let sum := d1.query_time_avg * (d1.query_count : ℚ) + e.duration
    let sqr_sum := (old_avg * old_avg + d1.query_time_var) * (d1.query_count : ℚ)
                     + e.duration * e.duration
    let n := d1.query_count + 1
    let avg := sum / (n : ℚ)
    let sqr_avg := sqr_sum / (n : ℚ)
    ({ d1 with
        query_time_avg := avg
        query_time_var := sqr_avg - avg * avg
        query_count := n
        time_first := tf
        time_last := e.time }, true)

/-- `Domain::getRandomTarget` character mapping (dnsprobe.h lines 173-177):
0-25 become lowercase letters, 26-35 become digits. -/
def targetChar (c : Nat) : Char :=
  if c < 26 then Char.ofNat (97 + c) else Char.ofNat (48 + (c - 26))

/-- The loop of `Domain::getRandomTarget` (dnsprobe.h lines 171-178):
draw `len` characters from `uniform_int_distribution<int>(0, 35)`,
threading the engine state. -/
def genChars : Nat → Nat → List Char × Nat
  | 0, s => ([], s)
  | len + 1, s =>
    let p := drawInRange 0 35 s
    let rest := genChars len p.2
    (targetChar p.1 :: rest.1, rest.2)

/-- `Domain::getRandomTarget` (dnsprobe.h lines 168-181): draw a length
from `uniform_int_distribution<int>(4, 10)`, then that many characters;
return the string and the domain with its advanced engine state. -/
def Domain.getRandomTarget (d : Domain) : String × Domain :=
  let p := drawInRange 4 10 d.prng
  let cs := genChars p.1 p.2
  (String.mk cs.1, { d with prng := cs.2 })

/-- The sequence of probe-target labels produced by `k` successive calls
of `getRandomTarget` on a domain. -/
def Domain.targetSeq (d : Domain) (k : Nat) : List String :=
  match k with
  | 0 => []
  | k + 1 =>
    let p := d.getRandomTarget
    p.1 :: p.2.targetSeq k

/-- Folding a list of events into a domain by successive `update` calls. -/
def foldEvents (d : Domain) (evs : List Event) : Domain :=
  evs.foldl (fun s e => (s.update e).1) d

/-- The durations carried by a list of events. -/
def durations (evs : List Event) : List ℚ := evs.map (fun e => e.duration)

/-- Arithmetic mean of a list of rationals (0 for the empty list, by the
Lean convention that x / 0 = 0). -/
def popMean (ds : List ℚ) : ℚ := ds.sum / (ds.length : ℚ)

/-- Mean of the squares of a list of rationals. -/
def popSqMean (ds : List ℚ) : ℚ := (ds.map (fun x => x * x)).sum / (ds.length : ℚ)

/-- Population (biased, non-Bessel-corrected) variance of a list. -/
def popVar (ds : List ℚ) : ℚ := popSqMean ds - popMean ds * popMean ds

/-- Remote host reply (`struct Reply`, dnsprobe.h lines 431-436); same
shape as `Event`. -/
structure Reply where
  time : Nat
  target : String
  event : EventType
  duration : ℚ
deriving DecidableEq

/-- The Event built by `RemoteQuery::probe` from a Reply
(dnsprobe.h line 471). -/
def eventOfReply (r : Reply) : Event :=
  { time := r.time, target := r.target, event := r.event, duration := r.duration }

/-- `RemoteQuery::probe` (dnsprobe.h lines 460-474), given the
`(Reply, bool)` pair produced by the virtual `sendQuery`: when the flag is
false an error is logged; the Reply is folded into the bound domain via
`update` in every case; the flag is returned unchanged.  The error log is
returned as ghost data. -/
def probe (d : Domain) (reply : Reply) (flag : Bool) : Domain × Bool × List String :=
  let logs := if flag = false then ["Cannot send query to " ++ d.name] else []
  let d2 := (d.update (eventOfReply reply)).1
  (d2, flag, logs)

/-- The environment of one `DNSQuery::sendQuery` call: whether a packet
came back and its QR bit (`packet && ldns_pkt_qr(packet)`), the resolver
status, the packet's timestamp and query time, the wall-clock elapsed
time measured around the resolution call, and the current time `time(0)`. -/
structure DNSOutcome where
  packetReceived : Bool
  qrBit : Bool
  statusOk : Bool
  pktTime : Nat
  pktQueryTimeMs : ℚ
  wallClockMs : ℚ
  now : Nat
deriving DecidableEq

/-- `DNSQuery::sendQuery` (dnsprobe.h lines 510-565).  The Reply defaults
to `EV_SEND_REQUEST` with `time(0)` and the locally measured wall-clock
duration; if a packet with the QR bit was received the kind becomes
`EV_RECV_DATA`, and when additionally the status is `LDNS_STATUS_OK` the
timestamp and duration are overwritten with the packet-reported values.
The success flag is always true (`return std::make_pair(reply, true)`).
The target draws on the domain's engine, so the advanced domain is
returned as well. -/
def sendQuery (d : Domain) (oc : DNSOutcome) : (Reply × Bool) × Domain :=
  let p := d.getRandomTarget
  let gotPacket := oc.packetReceived && oc.qrBit
  let reply : Reply :=
    { time := if gotPacket && oc.statusOk then oc.pktTime else oc.now
      target := p.1 ++ "." ++ d.name
      event := if gotPacket then EV_RECV_DATA else EV_SEND_REQUEST
      duration := if gotPacket && oc.statusOk then oc.pktQueryTimeMs else oc.wallClockMs }
  ((reply, true), p.2)

/-- A storage operation executed by `MySQLAccess::saveDomains`: one
UPDATE statement per domain (carrying its rank), then one INSERT of all
drained measurement rows. -/
inductive StorageOp where
  | updateDomain (rank : Nat)
  | insertMeasurements (rows : List Event)
deriving DecidableEq

/-- Result of `MySQLAccess::saveDomains`: the domain collection after the
call, the returned bool, the executed statements and the error logs
(ghost data). -/
structure SaveResult where
  domains : List Domain
  ok : Bool
  ops : List StorageOp
  logs : List String
deriving DecidableEq

/-- The error message logged on a failed SQL execution. -/
def sqlErrMsg : String := "Failed to execute SQL statement"

/-- `MySQLAccess::saveDomains` (dnsprobe.h lines 370-424).  An empty
collection returns false at once.  Otherwise one UPDATE per domain is
executed (a failure is only logged, via the `updOk` oracle); then the
INSERT of measurements is built by popping every event off every domain's
queue — the queues are drained while the statement is being assembled,
before it is executed — and the INSERT is executed (a failure again only
logged, via `insOk`); the function returns true. -/
def saveDomains (updOk : Nat → Bool) (insOk : Bool) (ds : List Domain) : SaveResult :=
  if ds.isEmpty then { domains := ds, ok := false, ops := [], logs := [] }
  else
    let updLogs := (List.range ds.length).filterMap
      (fun i => if updOk i then none else some sqlErrMsg)
    let rows := ds.flatMap (fun d => d.events)
    let drained := ds.map (fun d => { d with events := [] })
    let insLogs := if insOk then [] else [sqlErrMsg]
    { domains := drained
      ok := true
      ops := ds.map (fun d => StorageOp.updateDomain d.rank) ++ [StorageOp.insertMeasurements rows]
      logs := updLogs ++ insLogs }

/-- Scheduler actions observable from one timer tick. -/
inductive Action where
  | flush
  | probeCycle
deriving DecidableEq

/-- One SIGALRM firing in `Vantage::sigHandler` (dnsprobe.h lines 648-661):
the static `alarm_counter` is incremented; if it has reached
`_dbupdate_freq` (a C++ double, compared with `>=`) a flush (`save`) runs
and the counter resets to zero; then one probe cycle runs regardless.
Returns the new counter and the trace of actions of this tick. -/
def tick (dbupdate_freq : ℚ) (counter : Nat) : Nat × List Action :=
  let c := counter + 1
  if dbupdate_freq ≤ (c : ℚ) then (0, [Action.flush, Action.probeCycle])
  else (c, [Action.probeCycle])

/-- `n` successive timer ticks from a counter value, concatenating the
action traces in order (the (n+1)-st tick runs after the first n). -/
def runTicks (dbupdate_freq : ℚ) (counter : Nat) : Nat → Nat × List Action
  | 0 => (counter, [])
  | n + 1 =>
    let q := runTicks dbupdate_freq counter n
    let p := tick dbupdate_freq q.1
    (p.1, q.2 ++ p.2)

/-- Number of flush (`Vantage::save`) calls in an action trace. -/
def countFlush : List Action → Nat
  | [] => 0
  | Action.flush :: t => countFlush t + 1
  | Action.probeCycle :: t => countFlush t

/-- Number of probe cycles (`Vantage::probe` calls) in an action trace. -/
def countProbe : List Action → Nat
  | [] => 0
  | Action.probeCycle :: t => countProbe t + 1
  | Action.flush :: t => countProbe t

/-- A concrete domain holding one pending send event, used to exhibit the
behaviour of `saveDomains` when the INSERT fails. -/
def sampleDomainC2 : Domain :=
  { rank := 1
    name := "c2.example"
    query_time_avg := 0
    query_time_var := 0
    query_count := 0
    time_first := 0
    time_last := 0
    events := [⟨1, "a.c2.example", EventType.EV_SEND_REQUEST, 2⟩]
    prng := 1 }

/-- A concrete domain holding one pending timeout event, used to evaluate
the amended flush behaviour. -/
def sampleDomainW2 : Domain :=
  { rank := 2
    name := "w2.example"
    query_time_avg := 0
    query_time_var := 0
    query_count := 0
    time_first := 0
    time_last := 0
    events := [⟨4, "a.w2.example", EventType.EV_TIMEOUT, 1⟩]
    prng := 1 }

/-! Helper lemmas about the embedded operations. -/

theorem update_not_recv (d : Domain) (e : Event) (h : e.event ≠ EV_RECV_DATA) :
    d.update e = ({ d with events := d.events ++ [e] }, false) := by
  simp [Domain.update, h]

theorem update_events (d : Domain) (e : Event) :
    (d.update e).1.events = d.events ++ [e] := by
  by_cases h : e.event = EV_RECV_DATA <;> simp [Domain.update, h]

theorem update_recv_time_first (d : Domain) (e : Event) (h : e.event = EV_RECV_DATA) :
    (d.update e).1.time_first = if d.time_first = 0 then e.time else d.time_first := by
  simp [Domain.update, h]

theorem update_recv_time_last (d : Domain) (e : Event) (h : e.event = EV_RECV_DATA) :
    (d.update e).1.time_last = e.time := by
  simp [Domain.update, h]

theorem foldEvents_nil (d : Domain) : foldEvents d [] = d := rfl

theorem foldEvents_concat (d : Domain) (evs : List Event) (e : Event) :
    foldEvents d (evs ++ [e]) = ((foldEvents d evs).update e).1 := by
  simp [foldEvents, List.foldl_append]

theorem foldEvents_cons (d : Domain) (e : Event) (evs : List Event) :
    foldEvents d (e :: evs) = foldEvents ((d.update e).1) evs := rfl

theorem countFlush_append (a b : List Action) :
    countFlush (a ++ b) = countFlush a + countFlush b := by
  induction a with
  | nil => simp [countFlush]
  | cons x t ih =>
    cases x
    · simp [countFlush, ih]; omega
    · simp [countFlush, ih]

theorem countProbe_append (a b : List Action) :
    countProbe (a ++ b) = countProbe a + countProbe b := by
  induction a with
  | nil => simp [countProbe]
  | cons x t ih =>
    cases x
    · simp [countProbe, ih]
    · simp [countProbe, ih]; omega

/-! The claims. -/

/-- C8: for every event whose kind is not ReceiveData, `update` appends
the event to the pending-event queue and returns false, leaving
`queryTimeAvg` (here the variance field representing the stored stddev),
`queryCount`, `timeFirst` and `timeLast` exactly unchanged. -/
theorem C8_non_recv_frame (d : Domain) (e : Event) (h : e.event ≠ EV_RECV_DATA) :
    d.update e = ({ d with events := d.events ++ [e] }, false)
    ∧ (d.update e).1.events = d.events ++ [e]
    ∧ (d.update e).2 = false
    ∧ (d.update e).1.query_time_avg = d.query_time_avg
    ∧ (d.update e).1.query_time_var = d.query_time_var
    ∧ (d.update e).1.query_count = d.query_count
    ∧ (d.update e).1.time_first = d.time_first
    ∧ (d.update e).1.time_last = d.time_last := by
  refine ⟨update_not_recv d e h, ?_, ?_, ?_, ?_, ?_, ?_, ?_⟩ <;>
    simp [Domain.update, h]

/-- C8 witness: the frame property evaluated on a concrete timeout event
against a freshly constructed domain. -/
theorem C8_non_recv_frame_witness :
    (Domain.make "example.com" 0 0 0 0 0 0).update ⟨11, "t.example.com", EV_TIMEOUT, 2⟩
      = ({ Domain.make "example.com" 0 0 0 0 0 0 with
            events := (Domain.make "example.com" 0 0 0 0 0 0).events
              ++ [⟨11, "t.example.com", EV_TIMEOUT, 2⟩] }, false) :=
  (C8_non_recv_frame (Domain.make "example.com" 0 0 0 0 0 0)
    ⟨11, "t.example.com", EV_TIMEOUT, 2⟩ (by decide)).1

/-- C10: `saveDomains` on an empty domain collection returns false and
performs no storage operation at all — no UPDATE, no INSERT, no log —
and the (empty) domain collection is returned unchanged. -/
theorem C10_empty_save_noop (updOk : Nat → Bool) (insOk : Bool) :
    saveDomains updOk insOk [] = { domains := [], ok := false, ops := [], logs := [] } := by
  simp [saveDomains]

/-- C3: `RemoteQuery::probe` returns exactly the boolean produced by
`sendQuery`, and folds the Reply into the bound domain via `update` for
every outcome — in particular the event is enqueued even when the flag is
false, in which case (and only then) a send failure is logged. -/
theorem C3_probe_folds_and_returns_flag (d : Domain) (r : Reply) (flag : Bool) :
    (probe d r flag).2.1 = flag
    ∧ (probe d r flag).1 = (d.update (eventOfReply r)).1
    ∧ (probe d r flag).1.events = d.events ++ [eventOfReply r]
    ∧ (probe d r flag).2.2
        = (if flag = false then ["Cannot send query to " ++ d.name] else []) := by
  refine ⟨rfl, rfl, ?_, rfl⟩
  exact update_events d (eventOfReply r)

/-- C4: with `flushEveryNProbes = 4`, after `n` timer ticks the counter
equals `n % 4`, exactly `n / 4` flushes have occurred, and every tick ran
exactly one probe cycle; moreover the tick that reaches the threshold
performs the flush before its probe cycle.  In particular ticks 1-3
flush nothing, tick 4 flushes once and resets the counter, and the next
flush happens at tick 8. -/
theorem C4_tick_flush_cadence (n : Nat) :
    (runTicks 4 0 n).1 = n % 4
    ∧ countFlush (runTicks 4 0 n).2 = n / 4
    ∧ countProbe (runTicks 4 0 n).2 = n
    ∧ tick 4 3 = (0, [Action.flush, Action.probeCycle])
    ∧ countFlush (runTicks 4 0 3).2 = 0
    ∧ countFlush (runTicks 4 0 4).2 = 1
    ∧ countFlush (runTicks 4 0 7).2 = 1
    ∧ countFlush (runTicks 4 0 8).2 = 2 := by
  have main : ∀ m : Nat, (runTicks 4 0 m).1 = m % 4
      ∧ countFlush (runTicks 4 0 m).2 = m / 4
      ∧ countProbe (runTicks 4 0 m).2 = m := by
    intro m
    induction m with
    | zero => exact ⟨rfl, rfl, rfl⟩
    | succ m ih =>
      obtain ⟨hc, hf, hp⟩ := ih
      have hrun : runTicks 4 0 (m + 1)
          = ((tick 4 (m % 4)).1, (runTicks 4 0 m).2 ++ (tick 4 (m % 4)).2) := by
        simp only [runTicks]; rw [hc]
      rcases (by omega : m % 4 = 0 ∨ m % 4 = 1 ∨ m % 4 = 2 ∨ m % 4 = 3) with h | h | h | h
      · rw [h, (by decide : tick 4 0 = (1, [Action.probeCycle]))] at hrun
        refine ⟨?_, ?_, ?_⟩ <;>
          simp [hrun, countFlush_append, countProbe_append, countFlush, countProbe, hf, hp] <;>
          omega
      · rw [h, (by decide : tick 4 1 = (2, [Action.probeCycle]))] at hrun
        refine ⟨?_, ?_, ?_⟩ <;>
          simp [hrun, countFlush_append, countProbe_append, countFlush, countProbe, hf, hp] <;>
          omega
      · rw [h, (by decide : tick 4 2 = (3, [Action.probeCycle]))] at hrun
        refine ⟨?_, ?_, ?_⟩ <;>
          simp [hrun, countFlush_append, countProbe_append, countFlush, countProbe, hf, hp] <;>
          omega
      · rw [h, (by decide : tick 4 3 = (0, [Action.flush, Action.probeCycle]))] at hrun
        refine ⟨?_, ?_, ?_⟩ <;>
          simp [hrun, countFlush_append, countProbe_append, countFlush, countProbe, hf, hp] <;>
          omega
  refine ⟨(main n).1, (main n).2.1, (main n).2.2, by decide, ?_, ?_, ?_, ?_⟩
  · exact (main 3).2.1
  · exact (main 4).2.1
  · exact (main 7).2.1
  · exact (main 8).2.1

/-- C6 counterexample: `Domain::update` tests `if (!_time_first)`, so 0 is
the "unset" sentinel.  Fold a first ReceiveData event with timestamp 0
into a fresh domain: `timeFirst` is 0 (the first event's timestamp), yet
the next ReceiveData event (timestamp 5) changes `timeFirst` to 5 — so
`timeFirst` is not "never changed by any later update" as claimed. -/
theorem C6_counterexample :
    ((Domain.make "c6.example" 0 0 0 0 0 0).update
        ⟨0, "a.c6.example", EV_RECV_DATA, 1⟩).1.time_first = 0
    ∧ (((Domain.make "c6.example" 0 0 0 0 0 0).update
        ⟨0, "a.c6.example", EV_RECV_DATA, 1⟩).1.update
          ⟨5, "b.c6.example", EV_RECV_DATA, 1⟩).1.time_first = 5
    ∧ (0 : Nat) ≠ 5 := by
  decide

theorem foldEvents_append (d : Domain) (a b : List Event) :
    foldEvents d (a ++ b) = foldEvents (foldEvents d a) b := by
  simp [foldEvents, List.foldl_append]

theorem foldEvents_not_recv_time_first (d : Domain) (pre : List Event)
    (h : ∀ e ∈ pre, e.event ≠ EV_RECV_DATA) :
    (foldEvents d pre).time_first = d.time_first := by
  induction pre generalizing d with
  | nil => rfl
  | cons e t ih =>
    rw [foldEvents_cons, ih ((d.update e).1) (fun x hx => h x (List.mem_cons_of_mem _ hx)),
      update_not_recv d e (h e (List.mem_cons_self _ _))]

theorem foldEvents_time_first_stable (evs : List Event) (d : Domain)
    (h : d.time_first ≠ 0) :
    (foldEvents d evs).time_first = d.time_first := by
  induction evs generalizing d with
  | nil => rfl
  | cons e t ih =>
    have hstep : (d.update e).1.time_first = d.time_first := by
      by_cases hr : e.event = EV_RECV_DATA
      · rw [update_recv_time_first d e hr, if_neg h]
      · rw [update_not_recv d e hr]
    rw [foldEvents_cons, ih ((d.update e).1) (by rw [hstep]; exact h), hstep]

/-- C6 (amended): for a domain whose `timeFirst` is still unset (0),
take any sequence of updates — events of arbitrary kinds and arbitrary
timestamps — whose first ReceiveData event `e0` has a nonzero timestamp:
`timeFirst` is assigned from `e0`'s timestamp and is never changed by any
later update of the sequence, whatever its kind or timestamp; and
`timeLast` is set to the event's timestamp on every ReceiveData event,
i.e. right after folding a ReceiveData event following any prefix of
updates.  (A first ReceiveData event with timestamp 0 leaves `timeFirst`
re-assignable, per the counterexample.) -/
theorem C6_time_first_last (d : Domain) (pre rest : List Event) (e0 : Event)
    (hd : d.time_first = 0)
    (hpre : ∀ e ∈ pre, e.event ≠ EV_RECV_DATA)
    (he0 : e0.event = EV_RECV_DATA)
    (ht0 : e0.time ≠ 0) :
    (foldEvents d (pre ++ e0 :: rest)).time_first = e0.time
    ∧ ∀ (a : List Event) (e : Event), e.event = EV_RECV_DATA →
        (foldEvents d (a ++ [e])).time_last = e.time := by
  constructor
  · have h1 : (foldEvents d pre).time_first = 0 := by
      rw [foldEvents_not_recv_time_first d pre hpre, hd]
    have h2 : ((foldEvents d pre).update e0).1.time_first = e0.time := by
      rw [update_recv_time_first _ _ he0, if_pos h1]
    calc (foldEvents d (pre ++ e0 :: rest)).time_first
        = (foldEvents (((foldEvents d pre).update e0).1) rest).time_first := by
          rw [foldEvents_append]; rfl
      _ = e0.time := by
          rw [foldEvents_time_first_stable rest _ (by rw [h2]; exact ht0), h2]
  · intro a e he
    rw [foldEvents_append]
    exact update_recv_time_last (foldEvents d a) e he

/-- C6 witness: the amended statement evaluated on a concrete mixed
sequence — a SendRequest event, then the first ReceiveData event
(timestamp 3), then a Timeout event with timestamp 0 and a later
ReceiveData event with timestamp 7: `timeFirst` stays 3, and `timeLast`
right after the later ReceiveData event is 7. -/
theorem C6_time_first_last_witness :
    (foldEvents (Domain.make "w6.example" 0 0 0 0 0 0)
        ([⟨2, "p.w6.example", EV_SEND_REQUEST, 1⟩]
          ++ ⟨3, "a.w6.example", EV_RECV_DATA, 1⟩
            :: [⟨0, "b.w6.example", EV_TIMEOUT, 1⟩,
                ⟨7, "c.w6.example", EV_RECV_DATA, 2⟩])).time_first = 3
    ∧ (foldEvents (Domain.make "w6.example" 0 0 0 0 0 0)
        ([⟨2, "p.w6.example", EV_SEND_REQUEST, 1⟩, ⟨3, "a.w6.example", EV_RECV_DATA, 1⟩,
          ⟨0, "b.w6.example", EV_TIMEOUT, 1⟩]
          ++ [⟨7, "c.w6.example", EV_RECV_DATA, 2⟩])).time_last = 7 :=
  ⟨(C6_time_first_last (Domain.make "w6.example" 0 0 0 0 0 0)
      [⟨2, "p.w6.example", EV_SEND_REQUEST, 1⟩]
      [⟨0, "b.w6.example", EV_TIMEOUT, 1⟩, ⟨7, "c.w6.example", EV_RECV_DATA, 2⟩]
      ⟨3, "a.w6.example", EV_RECV_DATA, 1⟩ rfl (by decide) rfl (by decide)).1,
    (C6_time_first_last (Domain.make "w6.example" 0 0 0 0 0 0)
      [⟨2, "p.w6.example", EV_SEND_REQUEST, 1⟩]
      [⟨0, "b.w6.example", EV_TIMEOUT, 1⟩, ⟨7, "c.w6.example", EV_RECV_DATA, 2⟩]
      ⟨3, "a.w6.example", EV_RECV_DATA, 1⟩ rfl (by decide) rfl (by decide)).2
      [⟨2, "p.w6.example", EV_SEND_REQUEST, 1⟩, ⟨3, "a.w6.example", EV_RECV_DATA, 1⟩,
        ⟨0, "b.w6.example", EV_TIMEOUT, 1⟩]
      ⟨7, "c.w6.example", EV_RECV_DATA, 2⟩ rfl⟩

theorem update_time_last_cases (d : Domain) (e : Event) :
    (d.update e).1.time_last = d.time_last ∨ (d.update e).1.time_last = e.time := by
  by_cases h : e.event = EV_RECV_DATA
  · exact Or.inr (update_recv_time_last d e h)
  · left; rw [update_not_recv d e h]

theorem update_time_order (d : Domain) (e : Event)
    (h1 : d.time_first ≤ d.time_last) (h2 : d.time_last ≤ e.time) :
    (d.update e).1.time_first ≤ (d.update e).1.time_last := by
  by_cases h : e.event = EV_RECV_DATA
  · rw [update_recv_time_first _ _ h, update_recv_time_last _ _ h]
    split
    · exact le_refl _
    · exact le_trans h1 h2
  · rw [update_not_recv d e h]
    exact h1

/-- C7 counterexample: folding ReceiveData events with timestamps 5 then
3 into a fresh domain leaves `queryCount = 2 > 0` while
`timeFirst = 5 > 3 = timeLast` — the invariant `timeFirst ≤ timeLast` is
not maintained for arbitrary (non-monotone) event timestamps. -/
theorem C7_counterexample :
    0 < (((Domain.make "c7.example" 0 0 0 0 0 0).update
        ⟨5, "a.c7.example", EV_RECV_DATA, 1⟩).1.update
          ⟨3, "b.c7.example", EV_RECV_DATA, 1⟩).1.query_count
    ∧ ¬ ((((Domain.make "c7.example" 0 0 0 0 0 0).update
        ⟨5, "a.c7.example", EV_RECV_DATA, 1⟩).1.update
          ⟨3, "b.c7.example", EV_RECV_DATA, 1⟩).1.time_first
        ≤ (((Domain.make "c7.example" 0 0 0 0 0 0).update
        ⟨5, "a.c7.example", EV_RECV_DATA, 1⟩).1.update
          ⟨3, "b.c7.example", EV_RECV_DATA, 1⟩).1.time_last) := by
  decide

/-- C7 (amended): provided the events are folded with nondecreasing
timestamps that are at least the domain's current `timeLast`, and the
domain already satisfies `timeFirst ≤ timeLast` (as a fresh all-zero
domain does), every sequence of updates preserves
`timeFirst ≤ timeLast` — in particular it holds once `queryCount > 0`. -/
theorem C7_time_order_invariant (evs : List Event) (d : Domain)
    (h1 : d.time_first ≤ d.time_last)
    (h2 : ∀ e ∈ evs, d.time_last ≤ e.time)
    (h3 : evs.Pairwise fun a b => a.time ≤ b.time) :
    (foldEvents d evs).time_first ≤ (foldEvents d evs).time_last := by
  induction evs generalizing d with
  | nil => exact h1
  | cons e t ih =>
    rw [foldEvents_cons]
    have he : d.time_last ≤ e.time := h2 e (by simp)
    refine ih ((d.update e).1) (update_time_order d e h1 he) ?_
      (List.pairwise_cons.mp h3).2
    intro x hx
    rcases update_time_last_cases d e with hcase | hcase
    · rw [hcase]; exact h2 x (by simp [hx])
    · rw [hcase]; exact (List.pairwise_cons.mp h3).1 x hx

/-- C7 witness: the amended invariant evaluated on two concrete
ReceiveData events with nondecreasing timestamps 1, 2. -/
theorem C7_time_order_invariant_witness :
    (foldEvents (Domain.make "w7.example" 0 0 0 0 0 0)
        [⟨1, "a.w7.example", EV_RECV_DATA, 1⟩, ⟨2, "b.w7.example", EV_RECV_DATA, 1⟩]).time_first
      ≤ (foldEvents (Domain.make "w7.example" 0 0 0 0 0 0)
        [⟨1, "a.w7.example", EV_RECV_DATA, 1⟩, ⟨2, "b.w7.example", EV_RECV_DATA, 1⟩]).time_last :=
  C7_time_order_invariant
    [⟨1, "a.w7.example", EV_RECV_DATA, 1⟩, ⟨2, "b.w7.example", EV_RECV_DATA, 1⟩]
    (Domain.make "w7.example" 0 0 0 0 0 0)
    (by decide) (by decide) (by decide)

/-- C5 counterexample: when a response packet with the QR bit is received
but the resolution status is not OK, `DNSQuery::sendQuery` sets
`reply.event = EV_RECV_DATA` (dnsprobe.h line 538, which runs before the
status check), not `EV_SEND_REQUEST` as claimed. -/
theorem C5_counterexample :
    ((sendQuery (Domain.make "c5.example" 0 0 0 0 0 0)
        { packetReceived := true, qrBit := true, statusOk := false,
          pktTime := 50, pktQueryTimeMs := 3, wallClockMs := 7, now := 100 }).1.1.event
      = EV_RECV_DATA)
    ∧ EV_RECV_DATA ≠ EV_SEND_REQUEST := by
  decide

/-- C5 (amended): when no response packet is received (or its QR bit is
unset) the Reply keeps `kind = SendRequest` and the locally measured
wall-clock duration; when a packet is received but the status is not OK
the kind is `ReceiveData` with the wall-clock duration; the kind is never
Timeout or Error, and `sendQuery` always returns the flag true. -/
theorem C5_reply_kind_duration (d : Domain) (oc : DNSOutcome) :
    (¬ (oc.packetReceived = true ∧ oc.qrBit = true) →
        (sendQuery d oc).1.1.event = EV_SEND_REQUEST
        ∧ (sendQuery d oc).1.1.duration = oc.wallClockMs)
    ∧ (oc.packetReceived = true → oc.qrBit = true → oc.statusOk = false →
        (sendQuery d oc).1.1.event = EV_RECV_DATA
        ∧ (sendQuery d oc).1.1.duration = oc.wallClockMs)
    ∧ (sendQuery d oc).1.1.event ≠ EV_TIMEOUT
    ∧ (sendQuery d oc).1.1.event ≠ EV_ERROR
    ∧ (sendQuery d oc).1.2 = true := by
  refine ⟨?_, ?_, ?_, ?_, rfl⟩
  · intro h
    have hgp : (oc.packetReceived && oc.qrBit) = false := by
      cases hp : oc.packetReceived <;> cases hq : oc.qrBit <;> simp_all
    constructor <;> simp [sendQuery, hgp]
  · intro hp hq hs
    constructor <;> simp [sendQuery, hp, hq, hs]
  · cases hgp : (oc.packetReceived && oc.qrBit) <;> simp [sendQuery, hgp]
  · cases hgp : (oc.packetReceived && oc.qrBit) <;> simp [sendQuery, hgp]

/-- C5 witness: the amended behaviour evaluated on a concrete outcome
where a packet arrived with a non-OK status. -/
theorem C5_reply_kind_duration_witness :
    ((sendQuery (Domain.make "w5.example" 0 0 0 0 0 0)
        { packetReceived := true, qrBit := true, statusOk := false,
          pktTime := 5, pktQueryTimeMs := 2, wallClockMs := 9, now := 10 }).1.1.event
      = EV_RECV_DATA)
    ∧ ((sendQuery (Domain.make "w5.example" 0 0 0 0 0 0)
        { packetReceived := true, qrBit := true, statusOk := false,
          pktTime := 5, pktQueryTimeMs := 2, wallClockMs := 9, now := 10 }).1.1.duration
      = 9) :=
  (C5_reply_kind_duration (Domain.make "w5.example" 0 0 0 0 0 0)
    { packetReceived := true, qrBit := true, statusOk := false,
      pktTime := 5, pktQueryTimeMs := 2, wallClockMs := 9, now := 10 }).2.1 rfl rfl rfl

theorem targetSeq_congr (k : Nat) (d1 d2 : Domain) (h : d1.prng = d2.prng) :
    d1.targetSeq k = d2.targetSeq k := by
  induction k generalizing d1 d2 with
  | zero => rfl
  | succ k ih =>
    simp only [Domain.targetSeq, Domain.getRandomTarget]
    rw [h]
    exact congrArg₂ List.cons rfl (ih _ _ rfl)

/-- C9: two Domains constructed via the name-taking constructor with the
same name produce identical sequences of probe-target strings over any
equal number of `getRandomTarget` calls, whatever the other constructor
arguments; and the generator state at construction is exactly the seeded
engine on the 8-bit XOR fold of the name's bytes. -/
theorem C9_same_name_same_targets (name : String) (r1 r2 : Nat) (a1 s1 a2 s2 : ℚ)
    (c1 c2 f1 l1 f2 l2 : Nat) (k : Nat) :
    (Domain.make name r1 a1 s1 c1 f1 l1).targetSeq k
      = (Domain.make name r2 a2 s2 c2 f2 l2).targetSeq k
    ∧ (Domain.make name r1 a1 s1 c1 f1 l1).prng = lcgSeed (xorFold name) :=
  ⟨targetSeq_congr k _ _ rfl, rfl⟩

/-- C2 counterexample: `MySQLAccess::saveDomains` pops every pending
event off every domain's queue while assembling the INSERT statement,
before executing it.  With one domain holding one pending event and a
failing INSERT (`insOk = false`), after the flush the domain's queue is
empty: the pending event did not remain queued for retry. -/
theorem C2_counterexample :
    ((saveDomains (fun _ => true) false [sampleDomainC2]).domains.map Domain.events = [[]])
    ∧ ([sampleDomainC2].map Domain.events
        = [[⟨1, "a.c2.example", EV_SEND_REQUEST, 2⟩]])
    ∧ ([[]] : List (List Event)) ≠ [[⟨1, "a.c2.example", EV_SEND_REQUEST, 2⟩]] := by
  decide

/-- C2 (amended): a storage failure during flush is only logged and the
call still returns normally (`true` for a nonempty collection), but the
pending-event queues are drained unconditionally — they are emptied while
the INSERT is assembled, whether or not its execution succeeds — so
events pending at the start of the flush are not retained for retry. -/
theorem C2_flush_drains_regardless (updOk : Nat → Bool) (insOk : Bool) (ds : List Domain)
    (h : ds ≠ []) :
    (saveDomains updOk insOk ds).domains = ds.map (fun d => { d with events := [] })
    ∧ (saveDomains updOk insOk ds).ok = true
    ∧ (insOk = false → sqlErrMsg ∈ (saveDomains updOk insOk ds).logs) := by
  have hne : ds.isEmpty = false := by
    cases ds
    · exact absurd rfl h
    · rfl
  refine ⟨by simp [saveDomains, hne], by simp [saveDomains, hne], ?_⟩
  intro hins
  simp [saveDomains, hne, hins]

/-- C2 witness: the amended behaviour on one concrete domain with a
pending event and a failing INSERT. -/
theorem C2_flush_drains_regardless_witness :
    ((saveDomains (fun _ => true) false [sampleDomainW2]).domains
      = [sampleDomainW2].map (fun d => { d with events := [] }))
    ∧ (saveDomains (fun _ => true) false [sampleDomainW2]).ok = true
    ∧ (false = false →
        sqlErrMsg ∈ (saveDomains (fun _ => true) false [sampleDomainW2]).logs) :=
  C2_flush_drains_regardless (fun _ => true) false [sampleDomainW2] (by decide)

theorem sum_sq_nonneg (ds : List ℚ) : 0 ≤ (ds.map fun x => x * x).sum := by
  induction ds with
  | nil => simp
  | cons d t ih =>
    simp only [List.map_cons, List.sum_cons]
    nlinarith [mul_self_nonneg d]

theorem sum_sq_le_card_mul (ds : List ℚ) :
    ds.sum ^ 2 ≤ (ds.length : ℚ) * (ds.map fun x => x * x).sum := by
  induction ds with
  | nil => simp
  | cons d t ih =>
    by_cases ht : t = []
    · subst ht; simp; nlinarith [sq_nonneg d]
    · have hn : 0 < t.length := List.length_pos.mpr ht
      have hn1 : (1 : ℚ) ≤ (t.length : ℚ) := by exact_mod_cast hn
      simp only [List.sum_cons, List.map_cons, List.length_cons]
      push_cast
      nlinarith [ih, sum_sq_nonneg t, sq_nonneg ((t.length : ℚ) * d - t.sum), hn1,
        mul_nonneg (by positivity : (0 : ℚ) ≤ (t.length : ℚ) + 1) (sub_nonneg.mpr ih)]

theorem popVar_nonneg (ds : List ℚ) : 0 ≤ popVar ds := by
  cases ds with
  | nil => simp [popVar, popMean, popSqMean]
  | cons d t =>
    have hn : (0 : ℚ) < ((d :: t).length : ℚ) := by
      exact_mod_cast Nat.succ_pos t.length
    rw [popVar, popSqMean, popMean, sub_nonneg, div_mul_div_comm,
      div_le_div_iff₀ (by positivity) hn]
    nlinarith [sum_sq_le_card_mul (d :: t), hn]

theorem popMean_mul_length (ds : List ℚ) : popMean ds * (ds.length : ℚ) = ds.sum := by
  cases ds with
  | nil => simp [popMean]
  | cons d t =>
    rw [popMean, div_mul_cancel₀]
    exact Nat.cast_ne_zero.mpr (by simp)

theorem popSqMean_mul_length (ds : List ℚ) :
    popSqMean ds * (ds.length : ℚ) = (ds.map fun x => x * x).sum := by
  cases ds with
  | nil => simp [popSqMean]
  | cons d t =>
    rw [popSqMean, div_mul_cancel₀]
    exact Nat.cast_ne_zero.mpr (by simp)

theorem update_recv_count (d : Domain) (e : Event) (h : e.event = EV_RECV_DATA) :
    (d.update e).1.query_count = d.query_count + 1 := by
  simp [Domain.update, h]

theorem update_recv_avg (d : Domain) (e : Event) (h : e.event = EV_RECV_DATA) :
    (d.update e).1.query_time_avg
      = (d.query_time_avg * (d.query_count : ℚ) + e.duration) / ((d.query_count : ℚ) + 1) := by
  simp [Domain.update, h]

theorem update_recv_var (d : Domain) (e : Event) (h : e.event = EV_RECV_DATA) :
    (d.update e).1.query_time_var
      = ((d.query_time_avg * d.query_time_avg + d.query_time_var) * (d.query_count : ℚ)
            + e.duration * e.duration) / ((d.query_count : ℚ) + 1)
        - (d.query_time_avg * (d.query_count : ℚ) + e.duration) / ((d.query_count : ℚ) + 1)
          * ((d.query_time_avg * (d.query_count : ℚ) + e.duration) / ((d.query_count : ℚ) + 1)) := by
  simp [Domain.update, h]

theorem update_recv_stats (st : Domain) (e : Event) (he : e.event = EV_RECV_DATA)
    (ds : List ℚ)
    (hc : st.query_count = ds.length)
    (ha : st.query_time_avg = popMean ds)
    (hv : st.query_time_var = popVar ds) :
    (st.update e).1.query_count = ds.length + 1
    ∧ (st.update e).1.query_time_avg = popMean (ds ++ [e.duration])
    ∧ (st.update e).1.query_time_var = popVar (ds ++ [e.duration]) := by
  have hsum := popMean_mul_length ds
  have hsq := popSqMean_mul_length ds
  have hrecover : popMean ds * popMean ds + popVar ds = popSqMean ds := by
    rw [popVar]; ring
  refine ⟨?_, ?_, ?_⟩
  · rw [update_recv_count st e he, hc]
  · rw [update_recv_avg st e he, hc, ha, hsum, popMean, List.sum_append, List.length_append]
    simp only [List.sum_singleton, List.length_singleton]
    push_cast
    ring_nf
  · rw [update_recv_var st e he, hc, ha, hv, hrecover, hsq, hsum]
    rw [popVar, popSqMean, popMean, List.sum_append, List.map_append, List.sum_append,
      List.length_append]
    simp only [List.sum_singleton, List.length_singleton, List.map_singleton]
    push_cast
    ring_nf

theorem fold_stats (d : Domain) (evs : List Event)
    (hc : d.query_count = 0) (ha : d.query_time_avg = 0) (hv : d.query_time_var = 0)
    (hrecv : ∀ e ∈ evs, e.event = EV_RECV_DATA) :
    (foldEvents d evs).query_count = evs.length
    ∧ (foldEvents d evs).query_time_avg = popMean (durations evs)
    ∧ (foldEvents d evs).query_time_var = popVar (durations evs) := by
  induction evs using List.reverseRecOn with
  | nil =>
    refine ⟨?_, ?_, ?_⟩ <;>
      simp [foldEvents_nil, hc, ha, hv, durations, popMean, popVar, popSqMean]
  | append_singleton l e ih =>
    have ihl := ih (fun a ha2 => hrecv a (List.mem_append_left _ ha2))
    have he : e.event = EV_RECV_DATA := hrecv e (by simp)
    have hstep := update_recv_stats (foldEvents d l) e he (durations l)
      (by rw [ihl.1]; simp [durations]) ihl.2.1 ihl.2.2
    have hdur : durations (l ++ [e]) = durations l ++ [e.duration] := by simp [durations]
    refine ⟨?_, ?_, ?_⟩
    · rw [foldEvents_concat, hstep.1]
      simp [durations]
    · rw [foldEvents_concat, hstep.2.1, hdur]
    · rw [foldEvents_concat, hstep.2.2, hdur]

/-- C1: folding any sequence of ReceiveData events one at a time via
`update` into a freshly constructed all-zero Domain yields
`queryTimeAvg` equal to the arithmetic mean of the durations folded so
far and a running variance equal to the population (biased) variance, so
that the stored stddev `√variance` equals the spec's clamped formula
`√(max 0 (sqAvg − avg²))` — the clamp is a no-op because the variance is
provably nonnegative in exact arithmetic.  Quantifying over every event
list covers the state after each incremental update, not only the last. -/
theorem C1_running_stats (name : String) (evs : List Event)
    (hrecv : ∀ e ∈ evs, e.event = EV_RECV_DATA) :
    (foldEvents (Domain.make name 0 0 0 0 0 0) evs).query_time_avg = popMean (durations evs)
    ∧ (foldEvents (Domain.make name 0 0 0 0 0 0) evs).query_time_var = popVar (durations evs)
    ∧ 0 ≤ popVar (durations evs)
    ∧ Real.sqrt (((foldEvents (Domain.make name 0 0 0 0 0 0) evs).query_time_var : ℚ) : ℝ)
        = Real.sqrt (max 0 (((popSqMean (durations evs) : ℚ) : ℝ)
            - ((popMean (durations evs) : ℚ) : ℝ) * ((popMean (durations evs) : ℚ) : ℝ))) := by
  obtain ⟨hcnt, havg, hvar⟩ := fold_stats (Domain.make name 0 0 0 0 0 0) evs rfl rfl
    (by simp [Domain.make]) hrecv
  have hvpos := popVar_nonneg (durations evs)
  have hcast : ((popVar (durations evs) : ℚ) : ℝ)
      = ((popSqMean (durations evs) : ℚ) : ℝ)
        - ((popMean (durations evs) : ℚ) : ℝ) * ((popMean (durations evs) : ℚ) : ℝ) := by
    rw [popVar]; push_cast; ring
  have hge : (0 : ℝ) ≤ ((popSqMean (durations evs) : ℚ) : ℝ)
      - ((popMean (durations evs) : ℚ) : ℝ) * ((popMean (durations evs) : ℚ) : ℝ) := by
    rw [← hcast]; exact_mod_cast hvpos
  refine ⟨havg, hvar, hvpos, ?_⟩
  rw [hvar, hcast, max_eq_right hge]

/-- C1 witness: the running statistics evaluated on one concrete
ReceiveData event of duration 3. -/
theorem C1_running_stats_witness :
    (foldEvents (Domain.make "w1.example" 0 0 0 0 0 0)
        [⟨1, "a.w1.example", EV_RECV_DATA, 3⟩]).query_time_avg
      = popMean (durations [⟨1, "a.w1.example", EV_RECV_DATA, 3⟩])
    ∧ (foldEvents (Domain.make "w1.example" 0 0 0 0 0 0)
        [⟨1, "a.w1.example", EV_RECV_DATA, 3⟩]).query_time_var
      = popVar (durations [⟨1, "a.w1.example", EV_RECV_DATA, 3⟩])
    ∧ 0 ≤ popVar (durations [⟨1, "a.w1.example", EV_RECV_DATA, 3⟩])
    ∧ Real.sqrt (((foldEvents (Domain.make "w1.example" 0 0 0 0 0 0)
        [⟨1, "a.w1.example", EV_RECV_DATA, 3⟩]).query_time_var : ℚ) : ℝ)
      = Real.sqrt (max 0
          (((popSqMean (durations [⟨1, "a.w1.example", EV_RECV_DATA, 3⟩]) : ℚ) : ℝ)
            - ((popMean (durations [⟨1, "a.w1.example", EV_RECV_DATA, 3⟩]) : ℚ) : ℝ)
              * ((popMean (durations [⟨1, "a.w1.example", EV_RECV_DATA, 3⟩]) : ℚ) : ℝ))) :=
  C1_running_stats "w1.example" [⟨1, "a.w1.example", EV_RECV_DATA, 3⟩] (by decide)

end dnsprobe
